import Mathlib

/-!
Verification of the asynchronous orchestration core of `zerotier-gui.py`
(single-flight runner, command executor, capability detection, record
parsers, dispatcher script writer, service-action reconciler).

The Python source is shallowly embedded: pure helpers become Lean
functions, the stateful pieces become explicit state passing, and the
outcomes of external processes / successive `get_service_info` queries
are supplied as oracle values.  Python text semantics (`str.strip`,
`str.split`, `int(s, 16)`, the `in` substring test) are modelled for
ASCII input, which covers every string this program manipulates.
-/

namespace ZtGui

/-- ASCII whitespace, as stripped/split by Python `str.strip()` / `str.split()`
(space, tab, newline, carriage return, vertical tab, form feed). -/
def isPySpace (c : Char) : Bool :=
  c == ' ' || c == '\t' || c == '\n' || c == '\r' ||
    c == Char.ofNat 11 || c == Char.ofNat 12

/-- Hexadecimal digit as understood by Python `int(s, 16)`. -/
def isHexDigit (c : Char) : Bool :=
  (decide ('0' ≤ c) && decide (c ≤ '9')) ||
  (decide ('a' ≤ c) && decide (c ≤ 'f')) ||
  (decide ('A' ≤ c) && decide (c ≤ 'F'))

/-- Numeric value of a hexadecimal digit. -/
def hexVal (c : Char) : Nat :=
  if decide ('0' ≤ c) && decide (c ≤ '9') then c.toNat - '0'.toNat
  else if decide ('a' ≤ c) && decide (c ≤ 'f') then c.toNat - 'a'.toNat + 10
  else c.toNat - 'A'.toNat + 10

/-- Digit part of a Python base-16 integer literal, continued: after the first
digit, a single underscore may separate two digits (`1_2` is legal, `1__2`,
`1_` are not).  Returns the accumulated value, or `none` on a syntax error. -/
def hexDigitsVal : Nat → List Char → Option Nat
  | acc, [] => some acc
  | acc, c :: rest =>
    if c = '_' then
      match rest with
      | [] => none
      | d :: rest2 =>
        if isHexDigit d then hexDigitsVal (acc * 16 + hexVal d) rest2 else none
    else if isHexDigit c then hexDigitsVal (acc * 16 + hexVal c) rest
    else none

/-- Digit part of a Python base-16 integer literal: at least one digit,
underscores only between digits. -/
def hexDigitPart : List Char → Option Nat
  | [] => none
  | c :: rest => if isHexDigit c then hexDigitsVal (hexVal c) rest else none

/-- The part of a Python base-16 literal after the optional sign: an optional
`0x`/`0X` base marker (which may be followed by one underscore), then digits. -/
def hexAfterSign (l : List Char) : Option Nat :=
  match l with
  | c0 :: c1 :: rest =>
    if c0 = '0' ∧ (c1 = 'x' ∨ c1 = 'X') then
      match rest with
      | c2 :: rest2 => if c2 = '_' then hexDigitPart rest2 else hexDigitPart rest
      | [] => hexDigitPart []
    else hexDigitPart l
  | _ => hexDigitPart l

/-- Removal of leading and trailing ASCII whitespace from a character list. -/
def pyStripChars (l : List Char) : List Char :=
  ((l.dropWhile isPySpace).reverse.dropWhile isPySpace).reverse

/-- A whitespace-free Python base-16 integer literal: optional sign, then
marker and digits. -/
def hexSigned : List Char → Option Int
  | [] => none
  | c :: rest =>
    if c = '+' then (hexAfterSign rest).map (fun n => (n : Int))
    else if c = '-' then (hexAfterSign rest).map (fun n => -(n : Int))
    else (hexAfterSign (c :: rest)).map (fun n => (n : Int))

/-- Python `int(s, 16)` on an ASCII string: strips surrounding whitespace,
allows an optional sign, an optional `0x`/`0X` marker and underscore digit
separators; `none` models the `ValueError` raised on any other input. -/
def pyIntHex (s : String) : Option Int := hexSigned (pyStripChars s.data)

/-- Python `s.strip()` on an ASCII string. -/
def pyStrip (s : String) : String := ⟨pyStripChars s.data⟩

/-- Worker for `pyWords`: `cur` holds the (reversed) token being read. -/
def pyWordsAux : List Char → List Char → List String
  | cur, [] => if cur.isEmpty then [] else [⟨cur.reverse⟩]
  | cur, c :: rest =>
    if isPySpace c then
      if cur.isEmpty then pyWordsAux [] rest
      else ⟨cur.reverse⟩ :: pyWordsAux [] rest
    else pyWordsAux (c :: cur) rest

/-- Python `line.split()` (no argument): maximal runs of non-whitespace. -/
def pyWords (line : List Char) : List String := pyWordsAux [] line

/-- Python `raw.split('\n')`: split at every newline, keeping empty pieces;
the empty string yields one empty piece. -/
def splitNl : List Char → List (List Char)
  | [] => [[]]
  | c :: rest =>
    if c = '\n' then [] :: splitNl rest
    else
      match splitNl rest with
      | [] => [[c]]
      | l :: ls => (c :: l) :: ls

/-- Does `needle` occur at the head of `hay`? -/
def leadsWith : List Char → List Char → Bool
  | [], _ => true
  | _ :: _, [] => false
  | a :: ps, b :: ls => a == b && leadsWith ps ls

/-- Does `needle` occur contiguously anywhere in `hay`? -/
def containsSeq (needle : List Char) : List Char → Bool
  | [] => leadsWith needle []
  | c :: rest => leadsWith needle (c :: rest) || containsSeq needle rest

/-- Python `needle in hay` substring test. -/
def strContains (hay needle : String) : Bool := containsSeq needle.data hay.data

/-! ## Command Executor (`ZerotierGUI.cmd`, src lines 105-112)

`subprocess.run` without `check=True` does not raise on a nonzero exit
status; the `except` clause catches `TimeoutExpired`, `FileNotFoundError`
and `OSError`.  The outcome of the external process is the oracle input. -/

/-- Possible outcomes of `subprocess.run` as observed by `cmd`. -/
inductive ExecOutcome where
  | completed (exitCode : Nat) (stdout : String)
  | timedOut
  | notFound
  | osError
deriving Repr, DecidableEq

/-- `ZerotierGUI.cmd`: returns stripped stdout of a completed process
(whatever its exit status), and the empty string when the binary was
missing, the command timed out, or an `OSError` occurred.  Totality of
this function is the "never raises" guarantee. -/
def cmd : ExecOutcome → String
  | .completed _ out => pyStrip out
  | .timedOut => ""
  | .notFound => ""
  | .osError => ""

/-! ## Single-Flight Async Runner (`set_busy` / `_run_async`, src lines 205-241) -/

/-- The state owned by the single-flight runner: the busy flag, the text of
the status label, and the work items submitted to the thread pool (by their
status label). -/
structure RunnerState where
  busy : Bool
  statusText : String
  submitted : List String
deriving Repr, DecidableEq

/-- `ZerotierGUI.set_busy` restricted to the state it mutates: sets the busy
flag; when entering the busy state with a truthy (nonempty) `status_text`,
updates the status label (Python: `if busy: ... if status_text: self.set_status(...)`). -/
def set_busy (s : RunnerState) (b : Bool) (statusText : Option String) : RunnerState :=
  { s with
    busy := b
    statusText :=
      if b then
        match statusText with
        | some t => if t = "" then s.statusText else t
        | none => s.statusText
      else s.statusText }

/-- `ZerotierGUI._run_async`: if busy, returns `False` without touching any
state; otherwise marks busy (surfacing the label), submits the work item to
the pool and returns `True`. -/
def run_async (s : RunnerState) (label : String) : Bool × RunnerState :=
  if s.busy then (false, s)
  else
    let s1 := set_busy s true (some label)
    (true, { s1 with submitted := s1.submitted ++ [label] })

/-! ## Network-id validation (`join_network`, src lines 332-345) -/

/-- The validation performed by `ZerotierGUI.join_network` on the stripped
entry text: `len(nid) == 16 and int(nid, 16) >= 0`, with a `ValueError`
from `int` making the candidate invalid. -/
def join_valid (nid : String) : Bool :=
  nid.length == 16 &&
    (match pyIntHex nid with
     | some k => decide (0 ≤ k)
     | none => false)

/-! ## Record Parser (`_apply_refresh`, src lines 414-468) -/

/-- A row of the network list, as extracted from one accepted line. -/
structure NetworkRecord where
  id : String
  name : String
  statusTag : String
  assignedAddress : String
deriving Repr, DecidableEq

/-- One line of `zerotier-cli listnetworks` output: tokenized by `split()`;
accepted when `len(p) >= 8 and len(p[2]) == 16 and int(p[2], 16) >= 0`
(a `ValueError` drops the line); the assigned address is `p[8]` when
present, else the empty string. -/
def parseNetworkLine (line : List Char) : Option NetworkRecord :=
  let p := pyWords line
  if 8 ≤ p.length then
    let t2 := p.getD 2 ""
    if t2.length = 16 then
      match pyIntHex t2 with
      | some k =>
        if 0 ≤ k then
          some { id := t2, name := p.getD 3 "", statusTag := p.getD 5 ""
                 assignedAddress := if 8 < p.length then p.getD 8 "" else "" }
        else none
      | none => none
    else none
  else none

/-- The network-list rebuild loop: `for line in raw.split('\n')[1:]` with the
acceptance test above; malformed lines contribute nothing. -/
def parseNetworks (raw : String) : List NetworkRecord :=
  ((splitNl raw.data).drop 1).filterMap parseNetworkLine

/-- A row of the peer list, as extracted from one accepted line. -/
structure PeerRecord where
  address : String
  role : String
  latency : String
deriving Repr, DecidableEq

/-- One line of `zerotier-cli peers` output: accepted when
`len(p) >= 6 and p[2] == 'LEAF' and p[3] != '-1'`; the displayed latency
label is the latency token `p[3]` (suffixed `ms` by the UI). -/
def parsePeerLine (line : List Char) : Option PeerRecord :=
  let p := pyWords line
  if 6 ≤ p.length ∧ p.getD 2 "" = "LEAF" ∧ p.getD 3 "" ≠ "-1" then
    some { address := p.getD 0 "", role := p.getD 2 "", latency := p.getD 3 "" }
  else none

/-- The peer-list rebuild loop: `for line in raw.split('\n')[1:]`. -/
def parsePeers (raw : String) : List PeerRecord :=
  ((splitNl raw.data).drop 1).filterMap parsePeerLine

/-! ## Dispatcher Config Writer (`read_dispatcher` / `write_dispatcher`,
src lines 164-202)

The file system is modelled by the dispatcher file's content
(`none` = absent).  `write_dispatcher` fully overwrites the file, so the
resulting state does not depend on the prior one; a failing `os.remove`
on an absent file is swallowed, which the total model captures. -/

/-- Python falsiness of an optional string (`not fw`): `None` and `""`. -/
def pyFalsyOptStr : Option String → Bool
  | none => true
  | some s => s == ""

/-- The fixed guard template of the dispatcher script. -/
def dispatcher_base : List String :=
  ["#!/bin/bash",
   "# Auto-generated by zerotier-gui",
   "IFACE=\"$1\"",
   "ACTION=\"$2\"",
   "# Validate interface name",
   "[[ ! \"$IFACE\" =~ ^zt[a-z0-9]+$ || \"$ACTION\" != \"up\" ]] && exit 0"]

/-- Lines of the generated dispatcher script for a given settings pair. -/
def dispatcher_lines (route : Bool) (fw : Option String) : List String :=
  let ls := dispatcher_base
  let ls :=
    if route then
      ls ++ ["ip route replace 255.255.255.255/32 dev \"$IFACE\" 2>/dev/null || true"]
    else ls
  if fw = some "firewalld" then
    ls ++ ["firewall-cmd --zone=trusted --add-interface=\"$IFACE\" 2>/dev/null || true"]
  else if fw = some "ufw" then
    ls ++ ["ufw allow in on zt+ 2>/dev/null || true",
           "ufw allow out on zt+ 2>/dev/null || true"]
  else ls

/-- The file content written by `write_dispatcher`: `'\n'.join(lines) + '\n'`. -/
def dispatcher_content (route : Bool) (fw : Option String) : String :=
  String.intercalate "\n" (dispatcher_lines route fw) ++ "\n"

/-- `ZerotierGUI.write_dispatcher`: removes the script when both settings are
falsy (errors swallowed), otherwise rewrites it completely from the template. -/
def write_dispatcher (fs : Option String) (route : Bool) (fw : Option String) :
    Option String :=
  if route = false ∧ pyFalsyOptStr fw = true then none
  else some (dispatcher_content route fw)

/-- `ZerotierGUI.read_dispatcher`: substring probes of the current file
content; an unreadable/absent file yields `(False, False)`. -/
def read_dispatcher (fs : Option String) : Bool × Bool :=
  match fs with
  | none => (false, false)
  | some content =>
    (strContains content "255.255.255.255",
     strContains content "firewall-cmd" || strContains content "ufw allow")

/-! ## Capability Detector (`detect_firewall`, src lines 153-161) -/

/-- Oracle for the external probes made by `detect_firewall`:
`shutil.which` results and the `cmd` outputs it compares against. -/
structure FirewallEnv where
  firewallCmdOnPath : Bool
  firewalldIsActiveOut : String
  ufwOnPath : Bool
  ufwStatusOut : String
deriving Repr, DecidableEq

/-- `ZerotierGUI.detect_firewall`: firewalld first (tool present and unit
active), then ufw (tool present and a `Status: active` line), else `None`. -/
def detect_firewall (e : FirewallEnv) : Option String :=
  if e.firewallCmdOnPath && (e.firewalldIsActiveOut == "active") then some "firewalld"
  else if e.ufwOnPath && strContains e.ufwStatusOut "Status: active" then some "ufw"
  else none

/-! ## Service Action Controller (`service_action`, src lines 289-310)

Each poll iteration sleeps 0.5 s and then calls `get_service_info`; the
successive observations `(active_state, cli_online)` are the oracle stream
`obs`, indexed by iteration. -/

/-- Python `not x` on the tri-state capability flag (`None` is falsy). -/
def pyNotOptBool : Option Bool → Bool
  | some true => false
  | some false => true
  | none => true

/-- The gate state read by `service_action`. -/
structure ServiceState where
  busy : Bool
  has_systemd : Option Bool
deriving Repr, DecidableEq

/-- Everything `service_action` does, reified: the state after its
synchronous part, the `systemctl` verbs issued, the number of poll
iterations executed (each preceded by a 0.5 s sleep), and the number of
refreshes scheduled. -/
structure ServiceActionResult where
  st : ServiceState
  issued : List String
  iterations : Nat
  refreshes : Nat
deriving Repr, DecidableEq

/-- The loop body's exit test for one observation `(state, cli_online)`:
`expect_active and state == 'active' and cli_online`, or `state == 'failed'`,
or `not expect_active and state in ('inactive', 'failed')`. -/
def stop_cond (expectActive : Bool) (o : String × Bool) : Bool :=
  (expectActive && o.1 == "active" && o.2) || o.1 == "failed" ||
    (!expectActive && (o.1 == "inactive" || o.1 == "failed"))

/-- `for _ in range(fuel)` poll loop starting at iteration `i`: returns the
total number of iterations executed when the loop is left. -/
def poll_go (ea : Bool) (obs : Nat → String × Bool) : Nat → Nat → Nat
  | 0, i => i
  | fuel + 1, i => if stop_cond ea (obs i) then i + 1 else poll_go ea obs fuel (i + 1)

/-- Number of poll iterations executed by `service_action`'s `range(10)` loop. -/
def poll_count (ea : Bool) (obs : Nat → String × Bool) : Nat := poll_go ea obs 10 0

/-- `ZerotierGUI.service_action`: a no-op when busy or when `has_systemd` is
falsy (`None` or `False`); otherwise sets busy, issues the `systemctl` verb,
polls, and schedules exactly one refresh after the loop. -/
def service_action (st : ServiceState) (action : String)
    (obs : Nat → String × Bool) : ServiceActionResult :=
  if st.busy || pyNotOptBool st.has_systemd then
    ⟨st, [], 0, 0⟩
  else
    let ea := action == "start" || action == "restart"
    ⟨{ st with busy := true }, [action], poll_count ea obs, 1⟩

/-! ## Helper lemmas -/

theorem hexDigitsVal_total : ∀ (l : List Char), (∀ c ∈ l, isHexDigit c = true) →
    ∀ acc, ∃ v, hexDigitsVal acc l = some v := by
  intro l
  induction l with
  | nil => intro _ acc; exact ⟨acc, rfl⟩
  | cons c rest ih =>
    intro hall acc
    have hc : isHexDigit c = true := hall c (List.mem_cons_self c rest)
    have hne : ¬ c = '_' := by intro h; subst h; exact absurd hc (by decide)
    obtain ⟨v, hv⟩ :=
      ih (fun d hd => hall d (List.mem_cons_of_mem c hd)) (acc * 16 + hexVal c)
    refine ⟨v, ?_⟩
    rw [hexDigitsVal.eq_def]
    simp [hne, hc, hv]

theorem hexDigitPart_total (l : List Char) (hn : l ≠ [])
    (hall : ∀ c ∈ l, isHexDigit c = true) : ∃ v, hexDigitPart l = some v := by
  cases l with
  | nil => exact absurd rfl hn
  | cons c rest =>
    have hc : isHexDigit c = true := hall c (List.mem_cons_self c rest)
    obtain ⟨v, hv⟩ :=
      hexDigitsVal_total rest (fun d hd => hall d (List.mem_cons_of_mem c hd)) (hexVal c)
    exact ⟨v, by simp [hexDigitPart, hc, hv]⟩

theorem dropWhile_eq_self_of_not (p : Char → Bool) (l : List Char)
    (h : ∀ c ∈ l, p c = false) : l.dropWhile p = l := by
  cases l with
  | nil => rfl
  | cons c rest => simp [List.dropWhile_cons, h c (List.mem_cons_self c rest)]

theorem isPySpace_eq_false_of_hex (c : Char) (h : isHexDigit c = true) :
    isPySpace c = false := by
  by_contra hb
  have hs : isPySpace c = true := by
    cases hps : isPySpace c with
    | false => exact absurd hps hb
    | true => rfl
  have hmem : c = ' ' ∨ c = '\t' ∨ c = '\n' ∨ c = '\r' ∨
      c = Char.ofNat 11 ∨ c = Char.ofNat 12 := by
    simpa [isPySpace, or_assoc] using hs
  rcases hmem with rfl | rfl | rfl | rfl | rfl | rfl <;> exact absurd h (by decide)

theorem pyStripChars_of_hex (l : List Char) (hall : ∀ c ∈ l, isHexDigit c = true) :
    pyStripChars l = l := by
  unfold pyStripChars
  rw [dropWhile_eq_self_of_not _ l (fun c hc => isPySpace_eq_false_of_hex c (hall c hc))]
  rw [dropWhile_eq_self_of_not _ l.reverse
    (fun c hc => isPySpace_eq_false_of_hex c (hall c (List.mem_reverse.mp hc)))]
  exact List.reverse_reverse l

theorem hexAfterSign_of_hex (l : List Char) (hn : l ≠ [])
    (hall : ∀ c ∈ l, isHexDigit c = true) : ∃ v, hexAfterSign l = some v := by
  obtain ⟨v, hv⟩ := hexDigitPart_total l hn hall
  refine ⟨v, ?_⟩
  cases l with
  | nil => exact absurd rfl hn
  | cons c0 rest =>
    cases rest with
    | nil => exact hv
    | cons c1 rest2 =>
      have hc1 : isHexDigit c1 = true :=
        hall c1 (List.mem_cons_of_mem c0 (List.mem_cons_self c1 rest2))
      have hcond : ¬ (c0 = '0' ∧ (c1 = 'x' ∨ c1 = 'X')) := by
        rintro ⟨-, h1 | h1⟩ <;> (subst h1; exact absurd hc1 (by decide))
      simpa [hexAfterSign, hcond] using hv

theorem pyIntHex_of_hex (t : String) (hn : t.data ≠ [])
    (hall : ∀ c ∈ t.data, isHexDigit c = true) :
    ∃ k, pyIntHex t = some k ∧ 0 ≤ k := by
  unfold pyIntHex
  rw [pyStripChars_of_hex t.data hall]
  obtain ⟨v, hv⟩ := hexAfterSign_of_hex t.data hn hall
  cases hd : t.data with
  | nil => exact absurd hd hn
  | cons c rest =>
    have hc : isHexDigit c = true := hall c (hd ▸ List.mem_cons_self c rest)
    have hplus : ¬ c = '+' := by intro h; subst h; exact absurd hc (by decide)
    have hminus : ¬ c = '-' := by intro h; subst h; exact absurd hc (by decide)
    rw [hd] at hv
    exact ⟨(v : Int), by simp [hexSigned, hplus, hminus, hv], Int.natCast_nonneg v⟩

theorem splitNl_append (pre rest : List Char) (h : '\n' ∉ pre) :
    splitNl (pre ++ '\n' :: rest) = pre :: splitNl rest := by
  induction pre with
  | nil => simp [splitNl]
  | cons c cs ih =>
    have hc : ¬ c = '\n' := by
      intro e; subst e; exact h (List.mem_cons_self _ _)
    have ih' := ih (fun hm => h (List.mem_cons_of_mem c hm))
    simp only [List.cons_append, splitNl, if_neg hc, List.append_eq, ih']

/-! ## C1 -/

/-- C1 counterexample: with the busy flag clear, `_run_async` invoked with the
empty label accepts the work (returns `True`) but does not surface the label:
the status text stays at its previous value, because Python's
`if status_text:` treats the empty string as falsy.  This refutes the claim
for the label `""`. -/
theorem run_async_empty_label_not_surfaced :
    (run_async ⟨false, "idle", []⟩ "").1 = true ∧
    (run_async ⟨false, "idle", []⟩ "").2.statusText = "idle" ∧
    ("idle" : String) ≠ "" := by
  refine ⟨rfl, rfl, by decide⟩

/-- C1 (amended): when busy, `_run_async` returns `False` and performs no side
effect (state, including busy flag, status text and submitted work, is
untouched); when idle it sets busy, submits the work, returns `True`, and
surfaces the label provided the label is nonempty (an empty label leaves the
previous status text in place). -/
theorem run_async_single_flight : ∀ (s : RunnerState) (label : String),
    (s.busy = true → run_async s label = (false, s)) ∧
    (s.busy = false →
      (run_async s label).1 = true ∧
      (run_async s label).2.busy = true ∧
      (run_async s label).2.submitted = s.submitted ++ [label] ∧
      (label ≠ "" → (run_async s label).2.statusText = label) ∧
      (label = "" → (run_async s label).2.statusText = s.statusText)) := by
  intro s label
  constructor
  · intro hb; simp [run_async, hb]
  · intro hb
    by_cases hl : label = "" <;> simp [run_async, set_busy, hb, hl]

/-- C1 witness: the amended theorem applied to an idle state and the concrete
label `"joining network..."`. -/
theorem run_async_single_flight_witness :
    (run_async ⟨false, "idle", []⟩ "joining network...").1 = true ∧
    (run_async ⟨false, "idle", []⟩ "joining network...").2.statusText =
      "joining network..." := by
  have h := (run_async_single_flight ⟨false, "idle", []⟩ "joining network...").2 rfl
  exact ⟨h.1, h.2.2.2.1 (by decide)⟩

/-! ## C2 -/

/-- C2: the validator in `join_network` accepts the 16-character string
`"+123456789abcdef"`, which contains the non-hexadecimal character `'+'`,
because `int(nid, 16)` also accepts an optional sign (and likewise a
`0x`/`0X` marker and underscore separators).  The code's own comment
says `Validate 16-char hex network ID`, so this contradicts the intended
(and claimed) validation: the string is handed to
`zerotier-cli join +123456789abcdef`. -/
theorem join_valid_accepts_nonhex :
    join_valid "+123456789abcdef" = true ∧
    "+123456789abcdef".data.all isHexDigit = false := by
  exact ⟨by decide, by decide⟩

/-! ## C3 -/

/-- C3 counterexample: a process that completes with a nonzero exit status and
nonempty stdout (e.g. `systemctl is-active firewalld` printing `inactive`
with exit code 3) makes `cmd` return the stripped stdout, not the empty
string — `subprocess.run` without `check=True` does not raise on a nonzero
exit, and `cmd` returns `.stdout.strip()` unconditionally. -/
theorem cmd_nonzero_exit_returns_stdout :
    cmd (ExecOutcome.completed 3 "inactive\n") = "inactive" ∧
    ("inactive" : String) ≠ "" := by
  exact ⟨by decide, by decide⟩

/-- C3 (amended): `cmd` is total (never raises): binary-not-found, timeout and
OS-error outcomes uniformly yield the empty string, while a completed process
yields its stripped stdout regardless of exit status — so a nonzero exit
yields the empty string exactly when the process printed nothing (beyond
whitespace) to stdout. -/
theorem cmd_failure_modes :
    (∀ (rc : Nat) (out : String), cmd (ExecOutcome.completed rc out) = pyStrip out) ∧
    cmd ExecOutcome.timedOut = "" ∧
    cmd ExecOutcome.notFound = "" ∧
    cmd ExecOutcome.osError = "" ∧
    (∀ rc : Nat, cmd (ExecOutcome.completed rc "") = "") := by
  exact ⟨fun _ _ => rfl, rfl, rfl, rfl, fun _ => rfl⟩

/-! ## C4 -/

/-- C4 counterexample: a non-header line whose third token is the
16-character string `"+123456789abcdef"` — not 16 hexadecimal characters —
is nevertheless turned into a network record, because the code's test is
`int(p[2], 16) >= 0`, and Python's `int` accepts an optional sign (and a
`0x`/`0X` marker and underscore separators).  This refutes the claimed
"if and only if token[2] is exactly 16 hexadecimal characters". -/
theorem parse_networks_accepts_nonhex_id :
    parseNetworks "hdr\na b +123456789abcdef name tag OK dev x" =
      [⟨"+123456789abcdef", "name", "OK", ""⟩] ∧
    "+123456789abcdef".data.all isHexDigit = false := by
  exact ⟨by decide, by decide⟩

/-- C4 (amended): the first (header) line is always skipped (its content is
irrelevant); a subsequent line produces a record iff it has at least 8
whitespace tokens, its token[2] has exactly 16 characters, and token[2]
parses as a nonnegative integer under Python base-16 semantics (which, beyond
pure hex digits, also admits a sign, a `0x`/`0X` marker and underscore
separators); in particular every token[2] made of 16 hex digits is accepted;
the assigned address is the 9th token when present and `""` otherwise;
malformed lines are dropped silently. -/
theorem parse_networks_amended :
    (∀ line : List Char, (parseNetworkLine line).isSome = true ↔
        (8 ≤ (pyWords line).length ∧ ((pyWords line).getD 2 "").length = 16 ∧
         ∃ k, pyIntHex ((pyWords line).getD 2 "") = some k ∧ 0 ≤ k)) ∧
    (∀ (line : List Char) (r : NetworkRecord), parseNetworkLine line = some r →
        r.assignedAddress =
          (if 8 < (pyWords line).length then (pyWords line).getD 8 "" else "")) ∧
    (∀ pre1 pre2 rest : List Char, '\n' ∉ pre1 → '\n' ∉ pre2 →
        parseNetworks ⟨pre1 ++ '\n' :: rest⟩ = parseNetworks ⟨pre2 ++ '\n' :: rest⟩) ∧
    (∀ line : List Char, 8 ≤ (pyWords line).length →
        ((pyWords line).getD 2 "").length = 16 →
        (∀ c ∈ ((pyWords line).getD 2 "").data, isHexDigit c = true) →
        (parseNetworkLine line).isSome = true) := by
  have hiff : ∀ line : List Char, (parseNetworkLine line).isSome = true ↔
      (8 ≤ (pyWords line).length ∧ ((pyWords line).getD 2 "").length = 16 ∧
       ∃ k, pyIntHex ((pyWords line).getD 2 "") = some k ∧ 0 ≤ k) := by
    intro line
    simp only [parseNetworkLine]
    split <;> rename_i h8
    · split <;> rename_i h16
      · split <;> rename_i hopt heq
        · split <;> rename_i h0
          · exact iff_of_true rfl ⟨h8, h16, _, heq, h0⟩
          · refine iff_of_false (by simp) ?_
            rintro ⟨-, -, k', hk', hk0'⟩
            rw [heq] at hk'
            injection hk' with hkk
            subst hkk
            exact h0 hk0'
        · refine iff_of_false (by simp) ?_
          rintro ⟨-, -, k', hk', -⟩
          rw [heq] at hk'
          exact Option.noConfusion hk'
      · refine iff_of_false (by simp) ?_
        rintro ⟨-, h16', -⟩
        exact h16 h16'
    · refine iff_of_false (by simp) ?_
      rintro ⟨h8', -, -⟩
      exact h8 h8'
  refine ⟨hiff, ?_, ?_, ?_⟩
  · intro line r hr
    simp only [parseNetworkLine] at hr
    split at hr
    · split at hr
      · split at hr
        · split at hr
          · cases hr; rfl
          · simp at hr
        · simp at hr
      · simp at hr
    · simp at hr
  · intro pre1 pre2 rest h1 h2
    show ((splitNl (pre1 ++ '\n' :: rest)).drop 1).filterMap parseNetworkLine =
      ((splitNl (pre2 ++ '\n' :: rest)).drop 1).filterMap parseNetworkLine
    rw [splitNl_append pre1 rest h1, splitNl_append pre2 rest h2]
    rfl
  · intro line h8 h16 hall
    have hne : ((pyWords line).getD 2 "").data ≠ [] := by
      intro hnil
      have : ((pyWords line).getD 2 "").length = 0 := by
        show ((pyWords line).getD 2 "").data.length = 0
        rw [hnil]; rfl
      omega
    obtain ⟨k, hk, hk0⟩ := pyIntHex_of_hex ((pyWords line).getD 2 "") hne hall
    exact (hiff line).mpr ⟨h8, h16, k, hk, hk0⟩

/-- C4 witness: the amended theorem applied to two concrete headers and a
concrete well-formed network line with a 16-hex-digit id. -/
theorem parse_networks_amended_witness :
    parseNetworks ⟨['h'] ++ '\n' :: "a b 1234567890abcdef nm tg OK dv x".data⟩ =
      parseNetworks ⟨['g'] ++ '\n' :: "a b 1234567890abcdef nm tg OK dv x".data⟩ ∧
    (parseNetworkLine "a b 1234567890abcdef nm tg OK dv x".data).isSome = true := by
  constructor
  · exact parse_networks_amended.2.2.1 ['h'] ['g'] _ (by decide) (by decide)
  · exact parse_networks_amended.2.2.2 _ (by decide) (by decide) (by decide)

/-! ## C5 -/

/-- C5: a peer line is included exactly when it has at least 6 whitespace
tokens, its role token (token[2]) equals `"LEAF"`, and its latency token
(token[3]) is not the sentinel `"-1"`; the latency shown for an included
line is its latency token; and the rows are exactly those produced from the
lines after the header. -/
theorem parse_peers_filter :
    (∀ line : List Char, (parsePeerLine line).isSome = true ↔
        (6 ≤ (pyWords line).length ∧ (pyWords line).getD 2 "" = "LEAF" ∧
         (pyWords line).getD 3 "" ≠ "-1")) ∧
    (∀ (line : List Char) (r : PeerRecord), parsePeerLine line = some r →
        r.latency = (pyWords line).getD 3 "" ∧ r.role = "LEAF") ∧
    (∀ (raw : String) (r : PeerRecord), r ∈ parsePeers raw ↔
        ∃ line ∈ (splitNl raw.data).drop 1, parsePeerLine line = some r) := by
  refine ⟨?_, ?_, ?_⟩
  · intro line
    by_cases h : 6 ≤ (pyWords line).length ∧ (pyWords line).getD 2 "" = "LEAF" ∧
        (pyWords line).getD 3 "" ≠ "-1"
    · simp [parsePeerLine, h]
    · simp [parsePeerLine, h]
  · intro line r hr
    simp only [parsePeerLine] at hr
    split at hr
    · rename_i h
      cases hr
      exact ⟨rfl, h.2.1⟩
    · simp at hr
  · intro raw r
    simp [parsePeers, List.mem_filterMap]

/-- C5 witness: the scenario line `"abc123 1.2.3.4 LEAF 42 5.5 x"` is
included and its latency is the token `"42"`. -/
theorem parse_peers_filter_witness :
    (parsePeerLine "abc123 1.2.3.4 LEAF 42 5.5 x".data).isSome = true ∧
    (PeerRecord.mk "abc123" "LEAF" "42").latency =
      (pyWords "abc123 1.2.3.4 LEAF 42 5.5 x".data).getD 3 "" := by
  constructor
  · exact (parse_peers_filter.1 _).mpr (by decide)
  · exact (parse_peers_filter.2.1 _ _ (by decide)).1

/-! ## C6 -/

/-- C6: rewriting the dispatcher script twice with identical arguments yields
identical content (the script is fully regenerated from the arguments alone),
and whenever both settings are falsy the script is removed whatever the prior
file state was (a failing removal of an absent file is swallowed). -/
theorem write_dispatcher_idem_delete :
    ∀ (fs : Option String) (route : Bool) (fw : Option String),
      write_dispatcher (write_dispatcher fs route fw) route fw =
        write_dispatcher fs route fw ∧
      (route = false → pyFalsyOptStr fw = true → write_dispatcher fs route fw = none) := by
  intro fs route fw
  refine ⟨rfl, ?_⟩
  intro h1 h2
  simp [write_dispatcher, h1, h2]

/-- C6 witness: deleting from a pre-existing (stale) file state. -/
theorem write_dispatcher_idem_delete_witness :
    write_dispatcher (some "stale content") false none = none :=
  (write_dispatcher_idem_delete (some "stale content") false none).2 rfl rfl

/-! ## C8 -/

/-- C8: the firewall probe yields `"firewalld"` exactly when `firewall-cmd`
is on the PATH and the `firewalld` unit reports `active`; otherwise it yields
`"ufw"` exactly when `ufw` is on the PATH and its status output contains a
`Status: active` line; it yields `None` when neither matches (firewalld wins
when both would match). -/
theorem detect_firewall_policy : ∀ e : FirewallEnv,
    (detect_firewall e = some "firewalld" ↔
      e.firewallCmdOnPath = true ∧ e.firewalldIsActiveOut = "active") ∧
    (detect_firewall e = some "ufw" ↔
      ¬(e.firewallCmdOnPath = true ∧ e.firewalldIsActiveOut = "active") ∧
      (e.ufwOnPath = true ∧ strContains e.ufwStatusOut "Status: active" = true)) ∧
    (detect_firewall e = none ↔
      ¬(e.firewallCmdOnPath = true ∧ e.firewalldIsActiveOut = "active") ∧
      ¬(e.ufwOnPath = true ∧ strContains e.ufwStatusOut "Status: active" = true)) := by
  rintro ⟨p1, s1, p2, s2⟩
  by_cases h1 : s1 = "active" <;> by_cases h2 : strContains s2 "Status: active" = true <;>
    cases p1 <;> cases p2 <;>
    simp [detect_firewall, h1, h2]

/-! ## C9 -/

set_option maxRecDepth 8192 in
/-- C9: for the settings pairs that occur in the program
(`fw ∈ {None, "firewalld", "ufw"}`), a successful `write_dispatcher` followed
by `read_dispatcher` recovers `(routeEnabled, firewallKind ≠ None)`; in
particular `write_dispatcher(False, None)` leaves the file absent and
`read_dispatcher` then returns `(False, False)`. -/
theorem dispatcher_round_trip :
    ∀ (fs : Option String) (route : Bool) (fw : Option String),
      fw = none ∨ fw = some "firewalld" ∨ fw = some "ufw" →
      read_dispatcher (write_dispatcher fs route fw) = (route, fw.isSome) := by
  intro fs route fw h
  rcases h with rfl | rfl | rfl <;> cases route <;> rfl

/-- C9 witness: round trip at `(True, "ufw")`. -/
theorem dispatcher_round_trip_witness :
    read_dispatcher (write_dispatcher none true (some "ufw")) =
      (true, (some "ufw").isSome) :=
  dispatcher_round_trip none true (some "ufw") (Or.inr (Or.inr rfl))

/-! ## C7 -/

theorem poll_go_le (ea : Bool) (obs : Nat → String × Bool) :
    ∀ (fuel i : Nat), poll_go ea obs fuel i ≤ i + fuel := by
  intro fuel
  induction fuel with
  | zero => intro i; simp [poll_go]
  | succ n ih =>
    intro i
    simp only [poll_go]
    split
    · omega
    · have := ih (i + 1); omega

theorem poll_go_ge (ea : Bool) (obs : Nat → String × Bool) :
    ∀ (fuel i : Nat), i ≤ poll_go ea obs fuel i := by
  intro fuel
  induction fuel with
  | zero => intro i; simp [poll_go]
  | succ n ih =>
    intro i
    simp only [poll_go]
    split
    · omega
    · have := ih (i + 1); omega

theorem poll_go_pos (ea : Bool) (obs : Nat → String × Bool) (fuel i : Nat) :
    i + 1 ≤ poll_go ea obs (fuel + 1) i := by
  simp only [poll_go]
  split
  · omega
  · have := poll_go_ge ea obs fuel (i + 1); omega

theorem poll_go_not_stopped_before (ea : Bool) (obs : Nat → String × Bool) :
    ∀ (fuel i j : Nat), i ≤ j → j + 1 < poll_go ea obs fuel i →
      stop_cond ea (obs j) = false := by
  intro fuel
  induction fuel with
  | zero =>
    intro i j hij h
    simp [poll_go] at h
    exfalso; omega
  | succ n ih =>
    intro i j hij h
    simp only [poll_go] at h
    by_cases hs : stop_cond ea (obs i) = true
    · rw [if_pos hs] at h
      exfalso; omega
    · have hs' : stop_cond ea (obs i) = false := by
        cases hv : stop_cond ea (obs i) with
        | true => exact absurd hv hs
        | false => rfl
      rw [if_neg hs] at h
      rcases Nat.eq_or_lt_of_le hij with rfl | hlt
      · exact hs'
      · exact ih (i + 1) j hlt h

theorem poll_go_stops_within (ea : Bool) (obs : Nat → String × Bool) :
    ∀ (fuel i j : Nat), i ≤ j → j < i + fuel → stop_cond ea (obs j) = true →
      poll_go ea obs fuel i ≤ j + 1 := by
  intro fuel
  induction fuel with
  | zero => intro i j hij hj _; exfalso; omega
  | succ n ih =>
    intro i j hij hj hstop
    simp only [poll_go]
    split
    · omega
    · rename_i hs
      rcases Nat.eq_or_lt_of_le hij with rfl | hlt
      · exact absurd hstop hs
      · exact ih (i + 1) j hlt (by omega) hstop

theorem poll_go_exit_reason (ea : Bool) (obs : Nat → String × Bool) :
    ∀ (fuel i : Nat), poll_go ea obs fuel i < i + fuel →
      stop_cond ea (obs (poll_go ea obs fuel i - 1)) = true := by
  intro fuel
  induction fuel with
  | zero => intro i h; simp [poll_go] at h
  | succ n ih =>
    intro i h
    simp only [poll_go] at h ⊢
    split <;> rename_i hs
    · simpa using hs
    · rw [if_neg hs] at h
      exact ih (i + 1) (by omega)

/-- C7: once the gate passes (not busy, service known present), the
service-action reconciler issues exactly the requested `systemctl` verb and
runs a poll loop of at least 1 and at most 10 iterations (each iteration
sleeps 0.5 s, then re-queries `get_service_info`, observation `obs j`); no
iteration strictly before the last one satisfies the exit test; whenever some
iteration `j < 10` satisfies the exit test the loop stops by iteration
`j + 1` (first match wins); an early exit (fewer than 10 iterations) happens
only at an iteration satisfying the exit test; and exactly one refresh is
scheduled on loop exit, converged or exhausted.  The exit test `stop_cond`
is, verbatim from the code: active-and-reachable for start/restart,
inactive-or-failed for stop, and failed for every action. -/
theorem service_action_poll_spec :
    ∀ (st : ServiceState) (action : String) (obs : Nat → String × Bool),
      st.busy = false → st.has_systemd = some true →
      (service_action st action obs).refreshes = 1 ∧
      (service_action st action obs).issued = [action] ∧
      1 ≤ (service_action st action obs).iterations ∧
      (service_action st action obs).iterations ≤ 10 ∧
      (∀ j, j + 1 < (service_action st action obs).iterations →
        stop_cond (action == "start" || action == "restart") (obs j) = false) ∧
      (∀ j, j < 10 →
        stop_cond (action == "start" || action == "restart") (obs j) = true →
        (service_action st action obs).iterations ≤ j + 1) ∧
      ((service_action st action obs).iterations < 10 →
        stop_cond (action == "start" || action == "restart")
          (obs ((service_action st action obs).iterations - 1)) = true) := by
  intro st action obs hb hs
  have hr : service_action st action obs =
      ⟨{ st with busy := true }, [action],
        poll_count (action == "start" || action == "restart") obs, 1⟩ := by
    simp [service_action, hb, hs, pyNotOptBool]
  rw [hr]
  refine ⟨rfl, rfl, ?_, ?_, ?_, ?_, ?_⟩
  · exact poll_go_pos (action == "start" || action == "restart") obs 9 0
  · simpa using poll_go_le (action == "start" || action == "restart") obs 10 0
  · intro j hj
    exact poll_go_not_stopped_before (action == "start" || action == "restart")
      obs 10 0 j (Nat.zero_le j) hj
  · intro j hj hstop
    exact poll_go_stops_within (action == "start" || action == "restart")
      obs 10 0 j (Nat.zero_le j) (by omega) hstop
  · intro h
    exact poll_go_exit_reason (action == "start" || action == "restart")
      obs 10 0 (by simpa using h)

/-- Observation stream for the C7 witness: the service still shuts down for
two polls, then reports `inactive`. -/
def obsWitness : Nat → String × Bool :=
  fun n => if n < 2 then ("activating", false) else ("inactive", false)

/-- C7 witness: a `stop` action whose third observation is `inactive` exits
after exactly 3 of the 10 iterations and schedules exactly one refresh. -/
theorem service_action_poll_spec_witness :
    (service_action ⟨false, some true⟩ "stop" obsWitness).refreshes = 1 ∧
    (service_action ⟨false, some true⟩ "stop" obsWitness).iterations ≤ 2 + 1 ∧
    (service_action ⟨false, some true⟩ "stop" obsWitness).iterations = 3 := by
  have h := service_action_poll_spec ⟨false, some true⟩ "stop" obsWitness rfl rfl
  refine ⟨h.1, ?_, ?_⟩
  · exact h.2.2.2.2.2.1 2 (by decide) (by decide)
  · decide

/-! ## C10 -/

/-- C10: `service_action` is a complete no-op — no command issued, busy flag
untouched, no poll iterations, no refresh scheduled — both when
`has_systemd` is known `False` and when capability detection has not yet run
(`has_systemd` still `None`), since Python's `not self.has_systemd` is true
for both. -/
theorem service_action_requires_known_systemd :
    ∀ (st : ServiceState) (action : String) (obs : Nat → String × Bool),
      st.has_systemd = none ∨ st.has_systemd = some false →
      service_action st action obs = ⟨st, [], 0, 0⟩ := by
  intro st action obs h
  rcases h with h | h <;> simp [service_action, pyNotOptBool, h]

/-- C10 witness: the gate applied before capability detection completed. -/
theorem service_action_requires_known_systemd_witness :
    service_action ⟨false, none⟩ "start" (fun _ => ("active", true)) =
      ⟨⟨false, none⟩, [], 0, 0⟩ :=
  service_action_requires_known_systemd ⟨false, none⟩ "start" _ (Or.inl rfl)

end ZtGui
